import Mathlib

/-!
# Verification of the AWS-Lambda-Crawler task execution engine

Shallow embedding of `src/handlers/crawler.py` and the Pydantic models in
`src/models/types.py`.  The browser, credential store and S3 storage are
external collaborators; their behaviour at each call site is supplied by an
explicit environment record, so every Python `await`-call that can raise is
modelled as an environment-provided outcome (`none` = returned normally,
`some msg` = raised an exception with message `msg`).
-/

set_option maxHeartbeats 1000000

namespace Crawler

/-- JSON values, as produced by Python's `json.loads`.  Numbers are modelled
as integers, which suffices for every field of the crawler's task schema. -/
inductive Json where
  | null
  | bool (b : Bool)
  | num (n : Int)
  | str (s : String)
  | arr (xs : List Json)
  | obj (fields : List (String × Json))
deriving Repr, BEq, Inhabited

/-- Python truthiness of a JSON value (`bool(x)` for the decoded object):
`None`, `False`, `0`, `""`, `[]` and `{}` are falsy. -/
def Json.truthy : Json → Bool
  | .null => false
  | .bool b => b
  | .num n => n != 0
  | .str s => s ≠ ""
  | .arr xs => !xs.isEmpty
  | .obj fs => !fs.isEmpty

/-- Binding of key `k` in a decoded JSON object (Python `data[k]` /
`k in data`; `json.loads` produces unique keys, so first match suffices). -/
def jLookup : List (String × Json) → String → Option Json
  | [], _ => none
  | p :: rest, k => if p.1 == k then some p.2 else jLookup rest k

/-- Python dict assignment `data[k] = v`: replace the binding when the key
is present, append it otherwise. -/
def jSet : List (String × Json) → String → Json → List (String × Json)
  | [], k, v => [(k, v)]
  | p :: rest, k, v =>
    if p.1 == k then (k, v) :: rest else p :: jSet rest k v

/-! ## Enumerations (`WaitState`, `WaitUntil` in `types.py`) -/

inductive WaitState where
  | attached | detached | visible | hidden
deriving Repr, DecidableEq, Inhabited

def WaitState.value : WaitState → String
  | .attached => "attached"
  | .detached => "detached"
  | .visible => "visible"
  | .hidden => "hidden"

inductive WaitUntil where
  | load | domcontentloaded | networkidle
deriving Repr, DecidableEq, Inhabited

def WaitUntil.value : WaitUntil → String
  | .load => "load"
  | .domcontentloaded => "domcontentloaded"
  | .networkidle => "networkidle"

/-! ## Action models (`types.py`), one structure per Pydantic model -/

structure LoginAction where
  username_xpath : String
  password_xpath : String
  submit_xpath : String
  secret_key : Option String := none
  wait_after_submit : Option Int := none
deriving Repr, DecidableEq, Inhabited

structure ClickAction where
  xpath : String
  wait_for_navigation : Bool := false
  delay : Option Int := none
deriving Repr, DecidableEq, Inhabited

structure FillAction where
  xpath : String
  value : String
  clear_first : Bool := false
deriving Repr, DecidableEq, Inhabited

structure WaitAction where
  xpath : Option String := none
  state : Option WaitState := some .visible
  timeout : Option Int := none
  delay : Option Int := none
deriving Repr, DecidableEq, Inhabited

/-- Model of `ExtractAction` in `types.py`.  The Python field `attribute` is a Lean
keyword, so it is called `attr` here. -/
structure ExtractAction where
  xpath : String
  attr : String := "inner_text"
  multiple : Bool := false
  name : String
deriving Repr, DecidableEq, Inhabited

structure ScreenshotAction where
  xpath : Option String := none
  full_page : Bool := false
  name : Option String := none
deriving Repr, DecidableEq, Inhabited

structure NavigateAction where
  url : String
  wait_until : WaitUntil := .domcontentloaded
deriving Repr, DecidableEq, Inhabited

structure SelectAction where
  xpath : String
  value : String
  by_label : Bool := false
deriving Repr, DecidableEq, Inhabited

structure HoverAction where
  xpath : String
deriving Repr, DecidableEq, Inhabited

structure ScrollAction where
  xpath : Option String := none
  x : Option Int := none
  y : Option Int := none
deriving Repr, DecidableEq, Inhabited

structure EvaluateAction where
  script : String
  name : Option String := none
deriving Repr, DecidableEq, Inhabited

/-- The closed tagged union `CrawlerAction` of `types.py`. -/
inductive CrawlerAction where
  | login (a : LoginAction)
  | click (a : ClickAction)
  | fill (a : FillAction)
  | wait (a : WaitAction)
  | extract (a : ExtractAction)
  | screenshot (a : ScreenshotAction)
  | navigate (a : NavigateAction)
  | select (a : SelectAction)
  | hover (a : HoverAction)
  | scroll (a : ScrollAction)
  | evaluate (a : EvaluateAction)
deriving Repr, DecidableEq, Inhabited

/-- The `type` discriminator string of an action (the Pydantic `Literal`
field). -/
def actionType : CrawlerAction → String
  | .login _ => "login"
  | .click _ => "click"
  | .fill _ => "fill"
  | .wait _ => "wait"
  | .extract _ => "extract"
  | .screenshot _ => "screenshot"
  | .navigate _ => "navigate"
  | .select _ => "select"
  | .hover _ => "hover"
  | .scroll _ => "scroll"
  | .evaluate _ => "evaluate"

/-! ## Configuration and task models -/

structure Viewport where
  width : Int := 1920
  height : Int := 1080
deriving Repr, DecidableEq, Inhabited

structure ProxyConfig where
  server : String
  username : Option String := none
  password : Option String := none
deriving Repr, DecidableEq, Inhabited

structure TaskConfig where
  timeout : Int := 30000
  wait_until : WaitUntil := .domcontentloaded
  viewport : Viewport := {}
  user_agent : Option String := none
  headers : Option (List (String × String)) := none
  proxy : Option ProxyConfig := none
deriving Repr, DecidableEq, Inhabited

structure CrawlerTask where
  task_id : Option String := none
  url : String
  actions : List CrawlerAction
  config : TaskConfig := {}
  metadata : List (String × String) := []
deriving Repr, DecidableEq, Inhabited

/-! ## Result models -/

structure ScreenshotResult where
  name : String
  s3_key : String
  s3_url : String
deriving Repr, DecidableEq, Inhabited

/-- Model of `ErrorInfo` in `types.py`.  The `stack` field holds the traceback text in
Python; traceback rendering is environment noise, so the embedding records
`none` there. -/
structure ErrorInfo where
  action : String
  message : String
  stack : Option String := none
deriving Repr, DecidableEq, Inhabited

/-- Model of `CrawlerResult` in `types.py`.  `timestamp` is the epoch instant supplied
by the environment; `data` is the extracted-data dict in insertion order. -/
structure CrawlerResult where
  task_id : Option String
  url : String
  success : Bool
  duration : Int
  timestamp : Int
  data : List (String × Json)
  screenshots : List ScreenshotResult
  errors : List ErrorInfo
  metadata : List (String × String)
deriving Repr, BEq, Inhabited

structure BatchItemFailure where
  itemIdentifier : String
deriving Repr, DecidableEq, Inhabited

structure SQSBatchResponse where
  batchItemFailures : List BatchItemFailure
deriving Repr, DecidableEq, Inhabited

/-! ## Action dispatcher environment

A live page is modelled by the elements each Playwright selector resolves to,
in document order.  `xpath_selector` is the selector translation of
`crawler.py`. -/

def xpath_selector (xpath : String) : String := "xpath=" ++ xpath

structure Element where
  inner_text : String
  inner_html : String
  attrs : List (String × String)
deriving Repr, DecidableEq, Inhabited

structure PageModel where
  query : String → List Element

/-- Python truthiness of `Optional[int]` (`if action.delay:`): `None` and `0`
are falsy. -/
def truthyInt : Option Int → Bool
  | none => false
  | some n => n != 0

/-- Python truthiness of `Optional[str]` (`if action.xpath:`): `None` and the
empty string are falsy. -/
def truthyStr : Option String → Bool
  | none => false
  | some s => s ≠ ""

/-- One observable suspension performed by `execute_wait`. -/
inductive WaitEffect where
  | timeoutWait (ms : Int)
  | selectorWait (selector : String) (state : String) (timeout : Option Int)
deriving Repr, DecidableEq

/-- Model of `execute_wait` in `crawler.py`, as the ordered list of page waits it
performs.  The source returns early after `page.wait_for_timeout` when
`action.delay` is truthy; otherwise it waits for the selector when
`action.xpath` is truthy; otherwise it does nothing. -/
def execute_wait (action : WaitAction) : List WaitEffect :=
  if truthyInt action.delay then
    [.timeoutWait (action.delay.getD 0)]
  else if truthyStr action.xpath then
    [.selectorWait (xpath_selector (action.xpath.getD ""))
      (match action.state with
       | some st => st.value
       | none => "visible")
      action.timeout]
  else
    []

/-- The `element.get_attribute(name) or ""` / `inner_text` / `inner_html`
selection in `execute_extract`. -/
def extractAttr (attr : String) (e : Element) : String :=
  if attr == "inner_text" then e.inner_text
  else if attr == "inner_html" then e.inner_html
  else
    match e.attrs.find? (fun p => p.1 == attr) with
    | some p => p.2
    | none => ""

/-- Model of `execute_extract` in `crawler.py`.  With `multiple` it reads every match
(an empty list when nothing matches); otherwise it takes `.first`, whose
`inner_text` / `inner_html` / `get_attribute` call times out and raises when
the locator matches nothing. -/
def execute_extract (page : PageModel) (action : ExtractAction) :
    Except String (List (String × Json)) :=
  let selector := xpath_selector action.xpath
  if action.multiple then
    let elements := page.query selector
    .ok [(action.name, .arr (elements.map (fun e => .str (extractAttr action.attr e))))]
  else
    match page.query selector with
    | [] => .error ("Timeout waiting for locator " ++ selector)
    | e :: _ => .ok [(action.name, .str (extractAttr action.attr e))]

/-- The `{action.name or "evaluate_result": result}` fragment returned by
`execute_evaluate` (`if action.name:` is a truthiness test). -/
def evaluate_data (action : EvaluateAction) (result : Json) :
    List (String × Json) :=
  if truthyStr action.name then [(action.name.getD "", result)]
  else [("evaluate_result", result)]

/-- Outcome of one `execute_*` call: the merged fragment on normal return, or
the raised exception's message. -/
inductive ExecOutcome where
  | ok (data : List (String × Json)) (shot : Option ScreenshotResult)
  | err (msg : String)

/-- Environment for `execute_action`: the page plus, for every action routine
whose body is pure browser/collaborator interaction, the outcome that
interaction produces on the given action (`none` = returned, `some msg` =
raised).  `execute_extract`, `execute_wait` and `execute_evaluate`'s
result-naming are modelled concretely above. -/
structure DispatchEnv where
  page : PageModel
  loginOutcome : LoginAction → Option String
  clickOutcome : ClickAction → Option String
  fillOutcome : FillAction → Option String
  waitOutcome : WaitAction → Option String
  screenshotOutcome : ScreenshotAction → Except String ScreenshotResult
  navigateOutcome : NavigateAction → Option String
  selectOutcome : SelectAction → Option String
  hoverOutcome : HoverAction → Option String
  scrollOutcome : ScrollAction → Option String
  evaluateOutcome : EvaluateAction → Except String Json

/-- Lift an effect-only routine outcome into an `ExecOutcome` (no data, no
screenshot fragment). -/
def unitOutcome : Option String → ExecOutcome
  | none => .ok [] none
  | some msg => .err msg

/-- Model of `execute_action` in `crawler.py`: total dispatch over the eleven
variants.  `extract` and `evaluate` contribute a `data` fragment,
`screenshot` a screenshot fragment; every other variant only has effects. -/
def execute_action (env : DispatchEnv) (action : CrawlerAction) : ExecOutcome :=
  match action with
  | .login a => unitOutcome (env.loginOutcome a)
  | .click a => unitOutcome (env.clickOutcome a)
  | .fill a => unitOutcome (env.fillOutcome a)
  | .wait a => unitOutcome (env.waitOutcome a)
  | .extract a =>
    match execute_extract env.page a with
    | .ok d => .ok d none
    | .error msg => .err msg
  | .screenshot a =>
    match env.screenshotOutcome a with
    | .ok s => .ok [] (some s)
    | .error msg => .err msg
  | .navigate a => unitOutcome (env.navigateOutcome a)
  | .select a => unitOutcome (env.selectOutcome a)
  | .hover a => unitOutcome (env.hoverOutcome a)
  | .scroll a => unitOutcome (env.scrollOutcome a)
  | .evaluate a =>
    match env.evaluateOutcome a with
    | .ok v => .ok (evaluate_data a v) none
    | .error msg => .err msg

/-! ## Execution engine (`process_task`) -/

/-- Python `dict.update(d)` on the extracted-data mapping: later writes win
and new keys keep insertion order. -/
def dictUpdate (m d : List (String × Json)) : List (String × Json) :=
  d.foldl (fun acc p => jSet acc p.1 p.2) m

/-- The mutable fields of `result` that the action loop of `process_task`
touches, plus the trace of action indices whose iteration was entered. -/
structure LoopState where
  data : List (String × Json)
  screenshots : List ScreenshotResult
  errors : List ErrorInfo
  executed : List Nat
deriving Repr, Inhabited

def initLoop : LoopState := ⟨[], [], [], []⟩

/-- The `f"{action.type}[{i}]"` label of an action error. -/
def mkLabel (t : String) (i : Nat) : String :=
  t ++ "[" ++ toString i ++ "]"

/-- Merging one successful action's fragment into the result
(`if action_result.get("data"): result.data.update(...)`, then the optional
screenshot append). -/
def applyFragment (st : LoopState) (d : List (String × Json))
    (shot : Option ScreenshotResult) : LoopState :=
  let st1 := if d.isEmpty then st else { st with data := dictUpdate st.data d }
  match shot with
  | none => st1
  | some s => { st1 with screenshots := st1.screenshots ++ [s] }

/-- The test `action.type in ("login", "navigate")`: the fatal set of `process_task`. -/
def isCritical (a : CrawlerAction) : Bool :=
  actionType a == "login" || actionType a == "navigate"

/-- The `for i, action in enumerate(task.actions)` loop of `process_task`,
with `i` the index of the first listed action and `exec` the outcome of
`execute_action` at each index.  Returns the final loop state plus
`some msg` when a critical action's failure was re-raised out of the loop
(`none` when the loop ran to completion). -/
def runActions (exec : Nat → CrawlerAction → ExecOutcome) :
    Nat → List CrawlerAction → LoopState → LoopState × Option String
  | _, [], st => (st, none)
  | i, a :: rest, st =>
    let st0 := { st with executed := st.executed ++ [i] }
    match exec i a with
    | .ok d shot => runActions exec (i + 1) rest (applyFragment st0 d shot)
    | .err msg =>
      let st1 := { st0 with
        errors := st0.errors ++ [⟨mkLabel (actionType a) i, msg, none⟩] }
      cond (isCritical a) (st1, some msg) (runActions exec (i + 1) rest st1)

/-- Environment of one `process_task` attempt: outcome of browser launch,
page creation and the initial `page.goto` (each `none` = succeeded), the
dispatcher outcome per action index, the `save_result` outcome, and the
wall-clock readings. -/
structure TaskEnv where
  launchErr : Option String
  newPageErr : Option String
  gotoErr : Option String
  exec : Nat → CrawlerAction → ExecOutcome
  saveErr : Option String
  durationMs : Int
  timestamp : Int

/-- Everything observable about one `process_task` call: the finalized
`CrawlerResult`, the results passed to `storage_manager.save_result` (in
order), the indices of actions whose loop iteration was entered, and whether
the trailing `RuntimeError` was raised (the attempt reported failed upward
for SQS redelivery). -/
structure TaskRun where
  result : CrawlerResult
  saved : List CrawlerResult
  executed : List Nat
  raised : Bool

/-- A `"task"`-labeled `ErrorInfo` appended by the outer `except` clause. -/
def taskErrorInfo (msg : String) : ErrorInfo := ⟨"task", msg, none⟩

/-- Model of `process_task` in `crawler.py`.  The `try` body launches the browser,
opens a page, performs the initial navigation and runs the action loop; any
exception escaping it appends one `"task"` error.  The `finally` block sets
the duration and persists the result, swallowing a persistence failure
(`env.saveErr` is deliberately unread).  Afterwards a `RuntimeError` is
raised iff the result is unsuccessful and carries a `"task"` error. -/
def process_task (task : CrawlerTask) (env : TaskEnv) : TaskRun :=
  let init : CrawlerResult :=
    { task_id := task.task_id
      url := task.url
      success := false
      duration := 0
      timestamp := env.timestamp
      data := []
      screenshots := []
      errors := []
      metadata := task.metadata }
  let tryOut : CrawlerResult × List Nat :=
    match env.launchErr with
    | some msg => ({ init with errors := [taskErrorInfo msg] }, [])
    | none =>
      match env.newPageErr with
      | some msg => ({ init with errors := [taskErrorInfo msg] }, [])
      | none =>
        match env.gotoErr with
        | some msg => ({ init with errors := [taskErrorInfo msg] }, [])
        | none =>
          match runActions env.exec 0 task.actions initLoop with
          | (st, none) =>
            ({ init with
                data := st.data
                screenshots := st.screenshots
                errors := st.errors
                success := st.errors.isEmpty }, st.executed)
          | (st, some msg) =>
            ({ init with
                data := st.data
                screenshots := st.screenshots
                errors := st.errors ++ [taskErrorInfo msg] }, st.executed)
  let final : CrawlerResult := { tryOut.1 with duration := env.durationMs }
  { result := final
    saved := [final]
    executed := tryOut.2
    raised := !final.success && final.errors.any (fun e => e.action == "task") }

/-! ## Task parsing (`parse_task`, `generate_task_id`) -/

/-- Model of `generate_task_id` in `crawler.py`: the wall clock in milliseconds and
the 32-char lowercase `uuid4().hex` string are environment inputs.
`hex(ms)[2:]` is the minimal lowercase base-16 rendering of `ms`, and
`uuid_hex[:6]` keeps the first six characters. -/
def generate_task_id (nowMs : Nat) (uuidHex : String) : String :=
  let timestamp := String.mk (Nat.toDigits 16 nowMs)
  let random_part := uuidHex.take 6
  "task-" ++ timestamp ++ "-" ++ random_part

/-- Pydantic `Optional[str] = None` field validation. -/
def parseTaskId : Option Json → Except String (Option String)
  | none => .ok none
  | some .null => .ok none
  | some (.str s) => .ok (some s)
  | some _ => .error "task_id must be a string"

/-- Modelled from Pydantic `HttpUrl` validation: an absolute URL with an
`http` or `https` scheme and a nonempty remainder.  (Pydantic also
normalizes the URL, e.g. adds a trailing slash; normalization is
deterministic in the input and none of the claims depends on it, so the
string is kept as given.) -/
def isHttpUrl (s : String) : Bool :=
  (List.isPrefixOf ("http://".data) s.data && s.length > 7) ||
  (List.isPrefixOf ("https://".data) s.data && s.length > 8)

def parseUrl : Option Json → Except String String
  | some (.str s) => if isHttpUrl s then .ok s else .error "invalid url"
  | _ => .error "url field required"

def reqStr (fs : List (String × Json)) (k : String) : Except String String :=
  match jLookup fs k with
  | some (.str s) => .ok s
  | _ => .error ("field " ++ k ++ " must be a string")

def optStrField (fs : List (String × Json)) (k : String)
    (dflt : Option String) : Except String (Option String) :=
  match jLookup fs k with
  | none => .ok dflt
  | some .null => .ok none
  | some (.str s) => .ok (some s)
  | some _ => .error ("field " ++ k ++ " must be a string or null")

def optIntField (fs : List (String × Json)) (k : String)
    (dflt : Option Int) : Except String (Option Int) :=
  match jLookup fs k with
  | none => .ok dflt
  | some .null => .ok none
  | some (.num n) => .ok (some n)
  | some _ => .error ("field " ++ k ++ " must be an integer or null")

def boolField (fs : List (String × Json)) (k : String) (dflt : Bool) :
    Except String Bool :=
  match jLookup fs k with
  | none => .ok dflt
  | some (.bool b) => .ok b
  | some _ => .error ("field " ++ k ++ " must be a boolean")

def intField (fs : List (String × Json)) (k : String) (dflt : Int) :
    Except String Int :=
  match jLookup fs k with
  | none => .ok dflt
  | some (.num n) => .ok n
  | some _ => .error ("field " ++ k ++ " must be an integer")

def parseWaitState (s : String) : Except String WaitState :=
  if s == "attached" then .ok .attached
  else if s == "detached" then .ok .detached
  else if s == "visible" then .ok .visible
  else if s == "hidden" then .ok .hidden
  else .error "invalid wait state"

def parseWaitUntil (s : String) : Except String WaitUntil :=
  if s == "load" then .ok .load
  else if s == "domcontentloaded" then .ok .domcontentloaded
  else if s == "networkidle" then .ok .networkidle
  else .error "invalid wait_until"

def optWaitStateField (fs : List (String × Json)) (k : String)
    (dflt : Option WaitState) : Except String (Option WaitState) :=
  match jLookup fs k with
  | none => .ok dflt
  | some .null => .ok none
  | some (.str s) => do
    let w ← parseWaitState s
    .ok (some w)
  | some _ => .error ("field " ++ k ++ " must be a wait state")

def waitUntilField (fs : List (String × Json)) (k : String)
    (dflt : WaitUntil) : Except String WaitUntil :=
  match jLookup fs k with
  | none => .ok dflt
  | some (.str s) => parseWaitUntil s
  | some _ => .error ("field " ++ k ++ " must be a wait_until string")

/-- A JSON object whose values are all strings, as a `dict[str, str]`. -/
def strDictOf (fs : List (String × Json)) :
    Except String (List (String × String)) :=
  fs.mapM (fun p =>
    match p.2 with
    | .str s => .ok (p.1, s)
    | _ => .error "expected a string value")

/-- Validation of one action object per its Pydantic model; dispatch is on
the `type` discriminator, and an unrecognized or missing tag is a hard
validation error. -/
def parseAction (j : Json) : Except String CrawlerAction :=
  match j with
  | .obj fs =>
    match jLookup fs "type" with
    | some (.str t) =>
      if t == "login" then do
        let u ← reqStr fs "username_xpath"
        let p ← reqStr fs "password_xpath"
        let s ← reqStr fs "submit_xpath"
        let sk ← optStrField fs "secret_key" none
        let w ← optIntField fs "wait_after_submit" none
        .ok (.login ⟨u, p, s, sk, w⟩)
      else if t == "click" then do
        let x ← reqStr fs "xpath"
        let w ← boolField fs "wait_for_navigation" false
        let d ← optIntField fs "delay" none
        .ok (.click ⟨x, w, d⟩)
      else if t == "fill" then do
        let x ← reqStr fs "xpath"
        let v ← reqStr fs "value"
        let c ← boolField fs "clear_first" false
        .ok (.fill ⟨x, v, c⟩)
      else if t == "wait" then do
        let x ← optStrField fs "xpath" none
        let st ← optWaitStateField fs "state" (some .visible)
        let to_ ← optIntField fs "timeout" none
        let d ← optIntField fs "delay" none
        .ok (.wait ⟨x, st, to_, d⟩)
      else if t == "extract" then do
        let x ← reqStr fs "xpath"
        let at_ ←
          match jLookup fs "attribute" with
          | none => Except.ok "inner_text"
          | some (.str s) => Except.ok s
          | some _ => Except.error "field attribute must be a string"
        let m ← boolField fs "multiple" false
        let n ← reqStr fs "name"
        .ok (.extract ⟨x, at_, m, n⟩)
      else if t == "screenshot" then do
        let x ← optStrField fs "xpath" none
        let f ← boolField fs "full_page" false
        let n ← optStrField fs "name" none
        .ok (.screenshot ⟨x, f, n⟩)
      else if t == "navigate" then do
        let u ← reqStr fs "url"
        let w ← waitUntilField fs "wait_until" .domcontentloaded
        .ok (.navigate ⟨u, w⟩)
      else if t == "select" then do
        let x ← reqStr fs "xpath"
        let v ← reqStr fs "value"
        let b ← boolField fs "by_label" false
        .ok (.select ⟨x, v, b⟩)
      else if t == "hover" then do
        let x ← reqStr fs "xpath"
        .ok (.hover ⟨x⟩)
      else if t == "scroll" then do
        let x ← optStrField fs "xpath" none
        let xo ← optIntField fs "x" none
        let yo ← optIntField fs "y" none
        .ok (.scroll ⟨x, xo, yo⟩)
      else if t == "evaluate" then do
        let s ← reqStr fs "script"
        let n ← optStrField fs "name" none
        .ok (.evaluate ⟨s, n⟩)
      else .error ("Unknown action type: " ++ t)
    | _ => .error "action type tag missing"
  | _ => .error "action must be an object"

def parseActions : Option Json → Except String (List CrawlerAction)
  | some (.arr xs) => xs.mapM parseAction
  | _ => .error "actions field required"

def parseViewport : Option Json → Except String Viewport
  | none => .ok {}
  | some (.obj fs) => do
    let w ← intField fs "width" 1920
    let h ← intField fs "height" 1080
    .ok ⟨w, h⟩
  | some _ => .error "viewport must be an object"

def parseProxy : Option Json → Except String (Option ProxyConfig)
  | none => .ok none
  | some .null => .ok none
  | some (.obj fs) => do
    let s ← reqStr fs "server"
    let u ← optStrField fs "username" none
    let p ← optStrField fs "password" none
    .ok (some ⟨s, u, p⟩)
  | some _ => .error "proxy must be an object"

def parseHeaders : Option Json → Except String (Option (List (String × String)))
  | none => .ok none
  | some .null => .ok none
  | some (.obj fs) => do
    let d ← strDictOf fs
    .ok (some d)
  | some _ => .error "headers must be an object"

def parseConfigField : Option Json → Except String TaskConfig
  | none => .ok {}
  | some (.obj fs) => do
    let t ← intField fs "timeout" 30000
    let w ← waitUntilField fs "wait_until" .domcontentloaded
    let v ← parseViewport (jLookup fs "viewport")
    let ua ← optStrField fs "user_agent" none
    let h ← parseHeaders (jLookup fs "headers")
    let p ← parseProxy (jLookup fs "proxy")
    .ok ⟨t, w, v, ua, h, p⟩
  | some _ => .error "config must be an object"

def parseMetadataField : Option Json → Except String (List (String × String))
  | none => .ok []
  | some (.obj fs) => strDictOf fs
  | some _ => .error "metadata must be an object"

/-- The construction `CrawlerTask(**data)`: Pydantic construction of the task model from the
decoded object (extra keys are ignored, Pydantic's default). -/
def mkCrawlerTask (fs : List (String × Json)) : Except String CrawlerTask := do
  let tid ← parseTaskId (jLookup fs "task_id")
  let url ← parseUrl (jLookup fs "url")
  let actions ← parseActions (jLookup fs "actions")
  let config ← parseConfigField (jLookup fs "config")
  let metadata ← parseMetadataField (jLookup fs "metadata")
  pure
    { task_id := tid
      url := url
      actions := actions
      config := config
      metadata := metadata }

/-- An SQS message body after `json.loads`: either the decoder raised
`JSONDecodeError`, or it produced a JSON value. -/
inductive RecordBody where
  | invalid (msg : String)
  | valid (data : Json)

/-- The test `"task_id" in data and bool(data["task_id"])` on the decoded object. -/
def hasTruthyTaskId (fs : List (String × Json)) : Bool :=
  match jLookup fs "task_id" with
  | some v => v.truthy
  | none => false

/-- Model of `parse_task` in `crawler.py`.  The generated id (produced by
`generate_task_id` from the wall clock and a fresh UUID) is passed in as
`genId`.  A non-object top-level value makes the Python `in` test or the
item assignment raise `TypeError`, which propagates like any other parse
failure. -/
def parse_task (body : RecordBody) (genId : String) :
    Except String CrawlerTask :=
  match body with
  | .invalid msg => .error ("Invalid JSON in message body: " ++ msg)
  | .valid (.obj fs) =>
    let fs' := if hasTruthyTaskId fs then fs else jSet fs "task_id" (.str genId)
    mkCrawlerTask fs'
  | .valid _ => .error "TypeError: message body is not an object"

/-! ## Batch coordinator (`process_batch`) -/

/-- One SQS record as `process_batch` consumes it: `record.get("messageId",
"unknown")` and `record.get("body", "{}")` (an absent body decodes to the
empty object), plus the per-record environment: the id `generate_task_id`
would produce and the execution environment of `process_task`. -/
structure RecordModel where
  messageId : Option String
  body : Option RecordBody
  genId : String
  env : TaskEnv

def recordMessageId (r : RecordModel) : String := r.messageId.getD "unknown"

def recordBody (r : RecordModel) : RecordBody := r.body.getD (.valid (.obj []))

/-- Whether processing one record raises (parse failure, or the
`RuntimeError` re-raised by `process_task`), i.e. whether `process_batch`
adds its identifier to the failure list. -/
def recordFails (r : RecordModel) : Bool :=
  match parse_task (recordBody r) r.genId with
  | .error _ => true
  | .ok task => (process_task task r.env).raised

/-- Model of `process_batch` in `crawler.py`: each record is parsed and executed
inside its own `try`, and a failure appends `{"itemIdentifier": message_id}`
to the batch response. -/
def process_batch (records : List RecordModel) : SQSBatchResponse :=
  { batchItemFailures :=
      records.foldl
        (fun acc r =>
          if recordFails r then acc ++ [⟨recordMessageId r⟩] else acc)
        [] }

/-- A record's `message_id` fails to parse into a task. -/
def parseFailed (r : RecordModel) : Bool :=
  match parse_task (recordBody r) r.genId with
  | .error _ => true
  | .ok _ => false

/-- A record parses but its execution is task-fatal (its result carries a
`"task"`-labeled error). -/
def taskFatal (r : RecordModel) : Bool :=
  match parse_task (recordBody r) r.genId with
  | .error _ => false
  | .ok task =>
    (process_task task r.env).result.errors.any (fun e => e.action == "task")

/-! ## Helper lemmas -/

theorem actionType_length (a : CrawlerAction) : 4 ≤ (actionType a).length := by
  cases a <;> simp only [actionType] <;> decide

/-- An action-error label `type[i]` is never the string `"task"`: it is at
least four characters of tag plus two brackets long. -/
theorem mkLabel_ne_task {t : String} (ht : 4 ≤ t.length) (i : Nat) :
    mkLabel t i ≠ "task" := by
  intro h
  have hlen := congrArg String.length h
  have h1 : ("[" : String).length = 1 := rfl
  have h2 : ("]" : String).length = 1 := rfl
  have h4 : ("task" : String).length = 4 := rfl
  simp only [mkLabel, String.length_append, h1, h2, h4] at hlen
  omega

theorem isCritical_iff (a : CrawlerAction) :
    isCritical a = true ↔ actionType a = "login" ∨ actionType a = "navigate" := by
  simp [isCritical, Bool.or_eq_true, beq_iff_eq]

theorem applyFragment_errors (st : LoopState) (d : List (String × Json))
    (shot : Option ScreenshotResult) :
    (applyFragment st d shot).errors = st.errors := by
  unfold applyFragment
  cases shot <;> dsimp only <;> split <;> rfl

theorem applyFragment_executed (st : LoopState) (d : List (String × Json))
    (shot : Option ScreenshotResult) :
    (applyFragment st d shot).executed = st.executed := by
  unfold applyFragment
  cases shot <;> dsimp only <;> split <;> rfl

/-- The action loop only appends to the error list and to the execution
trace; every appended error carries a `type[index]` label (never `"task"`),
and a nonempty list always records its first index. -/
theorem runActions_spec (exec : Nat → CrawlerAction → ExecOutcome) :
    ∀ (l : List CrawlerAction) (i : Nat) (st : LoopState),
    ∃ E X,
      (runActions exec i l st).1.errors = st.errors ++ E ∧
      (runActions exec i l st).1.executed = st.executed ++ X ∧
      (∀ e ∈ E, e.action ≠ "task") ∧
      (l ≠ [] → i ∈ X) := by
  intro l
  induction l with
  | nil =>
    intro i st
    exact ⟨[], [], by simp [runActions], by simp [runActions], by simp, by simp⟩
  | cons a rest ih =>
    intro i st
    cases hx : exec i a with
    | ok d shot =>
      obtain ⟨E, X, h1, h2, h3, h4⟩ :=
        ih (i + 1) (applyFragment { st with executed := st.executed ++ [i] } d shot)
      refine ⟨E, i :: X, ?_, ?_, h3, ?_⟩
      · simp only [runActions, hx]
        rw [h1, applyFragment_errors]
      · simp only [runActions, hx]
        rw [h2, applyFragment_executed]
        simp
      · intro _; simp
    | err msg =>
      by_cases hc : isCritical a = true
      · refine ⟨[⟨mkLabel (actionType a) i, msg, none⟩], [i], ?_, ?_, ?_, ?_⟩
        · simp only [runActions, hx, hc, cond_true]
        · simp only [runActions, hx, hc, cond_true]
        · intro e he
          simp only [List.mem_singleton] at he
          subst he
          exact mkLabel_ne_task (actionType_length a) i
        · intro _; simp
      · rw [Bool.not_eq_true] at hc
        obtain ⟨E, X, h1, h2, h3, h4⟩ :=
          ih (i + 1)
            { st with
              executed := st.executed ++ [i]
              errors := st.errors ++ [⟨mkLabel (actionType a) i, msg, none⟩] }
        refine ⟨⟨mkLabel (actionType a) i, msg, none⟩ :: E, i :: X, ?_, ?_, ?_, ?_⟩
        · simp only [runActions, hx, hc, cond_false]
          rw [h1]
          simp
        · simp only [runActions, hx, hc, cond_false]
          rw [h2]
          simp
        · intro e he
          rcases List.mem_cons.mp he with h | h
          · subst h
            exact mkLabel_ne_task (actionType_length a) i
          · exact h3 e h
        · intro _; simp

/-- Whether one action outcome aborts the loop: a failure of a critical
(login/navigate) action. -/
def aborting (o : ExecOutcome) (b : CrawlerAction) : Bool :=
  match o with
  | .ok _ _ => false
  | .err _ => isCritical b

/-- Running the loop from index `i` steps through the first `p` actions when
none of them aborts: the remaining loop starts at index `i + p` on the
dropped list, with the first `p` indices recorded and only `type[index]`
labels appended. -/
theorem runActions_reach (exec : Nat → CrawlerAction → ExecOutcome) :
    ∀ (p : Nat) (l : List CrawlerAction) (i : Nat) (st : LoopState),
    (∀ q b, q < p → l.get? q = some b → aborting (exec (i + q) b) b = false) →
    p ≤ l.length →
    ∃ E d sc,
      (∀ e ∈ E, e.action ≠ "task") ∧
      runActions exec i l st =
        runActions exec (i + p) (l.drop p)
          ⟨d, sc, st.errors ++ E, st.executed ++ List.range' i p⟩ := by
  intro p
  induction p with
  | zero =>
    intro l i st _ _
    refine ⟨[], st.data, st.screenshots, by simp, ?_⟩
    simp
  | succ p ih =>
    intro l i st hq hp
    cases l with
    | nil => simp at hp
    | cons a rest =>
      have ha0 : aborting (exec i a) a = false := by
        have := hq 0 a (Nat.succ_pos p) rfl
        simpa using this
      have hrest : ∀ q b, q < p → rest.get? q = some b →
          aborting (exec (i + 1 + q) b) b = false := by
        intro q b hqp hb
        have := hq (q + 1) b (by omega) (by simpa using hb)
        have harith : i + (q + 1) = i + 1 + q := by omega
        rwa [harith] at this
      have hlen : p ≤ rest.length := by
        simpa using hp
      cases hx : exec i a with
      | ok d shot =>
        obtain ⟨E, d', sc', hE, hrun⟩ :=
          ih rest (i + 1) (applyFragment { st with executed := st.executed ++ [i] } d shot)
            hrest hlen
        refine ⟨E, d', sc', hE, ?_⟩
        simp only [runActions, hx]
        rw [hrun, applyFragment_errors, applyFragment_executed]
        have h1 : i + (p + 1) = i + 1 + p := by omega
        have h2 : List.range' i (p + 1) = i :: List.range' (i + 1) p :=
          List.range'_succ i p 1
        rw [h1, h2]
        simp
      | err msg =>
        have hcrit : isCritical a = false := by
          simpa [aborting, hx] using ha0
        obtain ⟨E, d', sc', hE, hrun⟩ :=
          ih rest (i + 1)
            { st with
              executed := st.executed ++ [i]
              errors := st.errors ++ [⟨mkLabel (actionType a) i, msg, none⟩] }
            hrest hlen
        refine ⟨⟨mkLabel (actionType a) i, msg, none⟩ :: E, d', sc', ?_, ?_⟩
        · intro e he
          rcases List.mem_cons.mp he with h | h
          · subst h
            exact mkLabel_ne_task (actionType_length a) i
          · exact hE e h
        · simp only [runActions, hx, hcrit, cond_false]
          rw [hrun]
          have h1 : i + (p + 1) = i + 1 + p := by omega
          have h2 : List.range' i (p + 1) = i :: List.range' (i + 1) p :=
            List.range'_succ i p 1
          rw [h1, h2]
          simp

/-- Field values of a `process_task` run whose action loop completed
without a re-raised critical failure. -/
theorem process_task_complete (task : CrawlerTask) (env : TaskEnv)
    (st : LoopState)
    (hl : env.launchErr = none) (hn : env.newPageErr = none)
    (hg : env.gotoErr = none)
    (hr : runActions env.exec 0 task.actions initLoop = (st, none)) :
    (process_task task env).result.errors = st.errors ∧
    (process_task task env).result.success = st.errors.isEmpty ∧
    (process_task task env).executed = st.executed := by
  unfold process_task
  rw [hl, hn, hg, hr]
  exact ⟨rfl, rfl, rfl⟩

/-- Field values of a `process_task` run whose action loop re-raised a
critical failure: the outer handler appends one `"task"` error and the
success flag keeps its initial `false`. -/
theorem process_task_escape (task : CrawlerTask) (env : TaskEnv)
    (st : LoopState) (msg : String)
    (hl : env.launchErr = none) (hn : env.newPageErr = none)
    (hg : env.gotoErr = none)
    (hr : runActions env.exec 0 task.actions initLoop = (st, some msg)) :
    (process_task task env).result.errors = st.errors ++ [taskErrorInfo msg] ∧
    (process_task task env).result.success = false ∧
    (process_task task env).executed = st.executed := by
  unfold process_task
  rw [hl, hn, hg, hr]
  exact ⟨rfl, rfl, rfl⟩

/-- The engine sets `success` to `len(result.errors) == 0` on loop
completion and leaves it `false` on every exceptional path, so the flag
always equals emptiness of the final error list. -/
theorem process_task_success_eq (task : CrawlerTask) (env : TaskEnv) :
    (process_task task env).result.success =
      (process_task task env).result.errors.isEmpty := by
  unfold process_task
  cases hl : env.launchErr with
  | some msg => rfl
  | none =>
    cases hn : env.newPageErr with
    | some msg => rfl
    | none =>
      cases hg : env.gotoErr with
      | some msg => rfl
      | none =>
        rcases hr : runActions env.exec 0 task.actions initLoop with ⟨st, esc⟩
        cases esc with
        | none => rfl
        | some msg =>
          show false = (st.errors ++ [taskErrorInfo msg]).isEmpty
          cases h : (st.errors ++ [taskErrorInfo msg]).isEmpty
          · rfl
          · rw [List.isEmpty_iff] at h
            exact absurd h (by simp)

/-- The loop state reached from the initial state carries no
`"task"`-labeled error. -/
theorem runActions_init_no_task (exec : Nat → CrawlerAction → ExecOutcome)
    (l : List CrawlerAction) :
    ∀ e ∈ (runActions exec 0 l initLoop).1.errors, e.action ≠ "task" := by
  obtain ⟨E, X, h1, _, h3, _⟩ := runActions_spec exec l 0 initLoop
  intro e he
  rw [h1] at he
  rcases List.mem_append.mp he with h | h
  · simp [initLoop] at h
  · exact h3 e h

/-- The trailing `RuntimeError` of `process_task` fires exactly when the
final error list carries a `"task"`-labeled entry. -/
theorem process_task_raised_eq (task : CrawlerTask) (env : TaskEnv) :
    (process_task task env).raised =
      (process_task task env).result.errors.any
        (fun e => e.action == "task") := by
  unfold process_task
  cases hl : env.launchErr with
  | some msg => simp [taskErrorInfo]
  | none =>
    cases hn : env.newPageErr with
    | some msg => simp [taskErrorInfo]
    | none =>
      cases hg : env.gotoErr with
      | some msg => simp [taskErrorInfo]
      | none =>
        rcases hr : runActions env.exec 0 task.actions initLoop with ⟨st, esc⟩
        have hnt : ∀ e ∈ st.errors, e.action ≠ "task" := by
          have := runActions_init_no_task env.exec task.actions
          rw [hr] at this
          exact this
        have hany : st.errors.any (fun e => e.action == "task") = false := by
          rw [List.any_eq_false]
          intro e he
          simpa using hnt e he
        cases esc with
        | none =>
          show (!st.errors.isEmpty &&
              st.errors.any (fun e => e.action == "task")) = _
          rw [hany, Bool.and_false]
        | some msg =>
          show (!false && (st.errors ++ [taskErrorInfo msg]).any
              (fun e => e.action == "task")) = _
          simp [taskErrorInfo]

/-- Failing a record is exactly: the record failed to parse, or it parsed and
its execution was task-fatal. -/
theorem recordFails_eq (r : RecordModel) :
    recordFails r = (parseFailed r || taskFatal r) := by
  unfold recordFails parseFailed taskFatal
  cases hp : parse_task (recordBody r) r.genId with
  | error msg => rfl
  | ok task =>
    simp only [Bool.false_or]
    exact process_task_raised_eq task r.env

theorem process_batch_foldl (l : List RecordModel)
    (acc : List BatchItemFailure) :
    l.foldl
      (fun acc r =>
        if recordFails r then acc ++ [⟨recordMessageId r⟩] else acc)
      acc =
    acc ++ (l.filter recordFails).map (fun r => ⟨recordMessageId r⟩) := by
  induction l generalizing acc with
  | nil => simp
  | cons r rest ih =>
    simp only [List.foldl_cons, List.filter_cons]
    by_cases h : recordFails r = true
    · rw [if_pos h, ih, h]
      simp
    · rw [if_neg h, ih]
      rw [Bool.not_eq_true] at h
      rw [h]
      simp

/-! ## Concrete instances used by witnesses and counterexamples -/

/-- A task whose initial navigation environment fails. -/
def wTask : CrawlerTask :=
  { task_id := some "w-1"
    url := "https://example.com"
    actions := [.navigate ⟨"https://example.com/next", .domcontentloaded⟩] }

/-- Environment in which the initial `page.goto` raises. -/
def wEnvNavFail : TaskEnv :=
  { launchErr := none
    newPageErr := none
    gotoErr := some "net::ERR_FAILED"
    exec := fun _ _ => .ok [] none
    saveErr := none
    durationMs := 10
    timestamp := 0 }

/-! ## Claim theorems -/

/-- C2: for every task execution that completes its action list without a
task-fatal error, `Result.success` is true iff the error list is empty; in
every task-fatal execution (one whose result carries a `"task"` error)
`Result.success` is false.  The first conjunct is the unconditional
`success = len(errors) == 0` equation of the code, which covers the
non-fatal case; the second conjunct covers the fatal case. -/
theorem success_iff_errors_empty (task : CrawlerTask) (env : TaskEnv) :
    (process_task task env).result.success =
      (process_task task env).result.errors.isEmpty ∧
    ((process_task task env).result.errors.any
        (fun e => e.action == "task") = true →
      (process_task task env).result.success = false) := by
  refine ⟨process_task_success_eq task env, fun h => ?_⟩
  rw [process_task_success_eq task env]
  rw [List.any_eq_true] at h
  obtain ⟨e, he, _⟩ := h
  cases hE : (process_task task env).result.errors.isEmpty
  · rfl
  · rw [List.isEmpty_iff] at hE
    rw [hE] at he
    simp at he

/-- Witness for C2 at a concrete task-fatal run (initial navigation
fails). -/
theorem success_iff_errors_empty_witness :
    (process_task wTask wEnvNavFail).result.errors.any
      (fun e => e.action == "task") = true ∧
    (process_task wTask wEnvNavFail).result.success = false :=
  ⟨by decide, (success_iff_errors_empty wTask wEnvNavFail).2 (by decide)⟩

/-- C4: a completed attempt is reported failed upward (the `RuntimeError`
that triggers SQS redelivery is raised) iff the result's error list contains
an `ErrorInfo` labeled `"task"`; with only `type[index]`-labeled action
errors the attempt is reported successful. -/
theorem redelivered_iff_task_error (task : CrawlerTask) (env : TaskEnv) :
    (process_task task env).raised =
      (process_task task env).result.errors.any
        (fun e => e.action == "task") :=
  process_task_raised_eq task env

/-- C5: every attempt hands its finalized result to
`storage_manager.save_result` exactly once — in the `finally` block, hence
before the trailing `RuntimeError` can be raised — and the persistence
outcome is swallowed: an environment differing only in the `save_result`
outcome produces an identical run (same result, same persistence calls,
same raising). -/
theorem result_persisted_once_save_failure_swallowed (task : CrawlerTask)
    (env : TaskEnv) (o : Option String) :
    (process_task task env).saved = [(process_task task env).result] ∧
    process_task task { env with saveErr := o } = process_task task env :=
  ⟨rfl, rfl⟩

/-- C6: the batch coordinator processes every record independently and its
`batchItemFailures` list names exactly the records whose payload failed to
parse or whose execution was task-fatal, in record order. -/
theorem batch_failures_exactly_parse_or_fatal (records : List RecordModel) :
    process_batch records =
      ⟨(records.filter (fun r => parseFailed r || taskFatal r)).map
        (fun r => ⟨recordMessageId r⟩)⟩ := by
  unfold process_batch
  rw [process_batch_foldl]
  rw [show recordFails = fun r => parseFailed r || taskFatal r from
    funext recordFails_eq]
  simp

/-- C1: when the action at index `i` fails and its type is `login` or
`navigate`, the failure appends exactly one `type[i]`-labeled `ActionError`
followed by exactly one `"task"`-labeled `ErrorInfo` (the only `"task"`
entry in the whole list), no action after index `i` is executed, and
`Result.success` is false. -/
theorem critical_failure_appends_pair_and_halts (task : CrawlerTask)
    (env : TaskEnv) (i : Nat) (a : CrawlerAction) (msg : String)
    (hl : env.launchErr = none) (hn : env.newPageErr = none)
    (hg : env.gotoErr = none)
    (ha : task.actions.get? i = some a)
    (hcrit : actionType a = "login" ∨ actionType a = "navigate")
    (hfail : env.exec i a = .err msg)
    (hpre : ∀ q b, q < i → task.actions.get? q = some b →
        aborting (env.exec q b) b = false) :
    ∃ E, (∀ e ∈ E, e.action ≠ "task") ∧
      (process_task task env).result.errors =
        E ++ [⟨mkLabel (actionType a) i, msg, none⟩, taskErrorInfo msg] ∧
      (process_task task env).result.errors.countP
        (fun e => e.action == "task") = 1 ∧
      (process_task task env).executed = List.range (i + 1) ∧
      (process_task task env).result.success = false ∧
      (process_task task env).raised = true := by
  obtain ⟨hlt, hget⟩ := List.get?_eq_some.mp ha
  obtain ⟨E, d, sc, hE, hrun⟩ :=
    runActions_reach env.exec i task.actions 0 initLoop
      (fun q b hq hb => by simpa using hpre q b hq hb)
      (Nat.le_of_lt hlt)
  simp only [Nat.zero_add] at hrun
  have hdrop : task.actions.drop i = a :: task.actions.drop (i + 1) := by
    rw [List.drop_eq_getElem_cons hlt]
    have hgetElem : task.actions[i] = a := by
      simpa [List.get_eq_getElem] using hget
    rw [hgetElem]
  rw [hdrop] at hrun
  have hcritB : isCritical a = true := (isCritical_iff a).mpr hcrit
  have hstep :
      runActions env.exec i (a :: task.actions.drop (i + 1))
        ⟨d, sc, initLoop.errors ++ E, initLoop.executed ++ List.range' 0 i⟩ =
      (⟨d, sc,
        (initLoop.errors ++ E) ++ [⟨mkLabel (actionType a) i, msg, none⟩],
        (initLoop.executed ++ List.range' 0 i) ++ [i]⟩, some msg) := by
    simp only [runActions, hfail, hcritB, cond_true]
  rw [hstep] at hrun
  have hErr : (initLoop.errors ++ E) ++ [⟨mkLabel (actionType a) i, msg, none⟩]
      = E ++ [⟨mkLabel (actionType a) i, msg, none⟩] := by
    simp [initLoop]
  have hExe : (initLoop.executed ++ List.range' 0 i) ++ [i]
      = List.range (i + 1) := by
    simp only [initLoop, List.nil_append]
    rw [← List.range_eq_range', ← List.range_succ]
  obtain ⟨he1, he2, he3⟩ :=
    process_task_escape task env _ msg hl hn hg hrun
  have hlabelBeq :
      ((⟨mkLabel (actionType a) i, msg, none⟩ : ErrorInfo).action == "task")
        = false := by
    rw [beq_eq_false_iff_ne]
    exact mkLabel_ne_task (actionType_length a) i
  refine ⟨E, hE, ?_, ?_, ?_, ?_, ?_⟩
  · rw [he1, hErr]
    simp
  · rw [he1, hErr]
    rw [List.countP_append, List.countP_append]
    have hcE : E.countP (fun e => e.action == "task") = 0 := by
      rw [List.countP_eq_zero]
      intro e he
      simpa using hE e he
    rw [hcE]
    rw [List.countP_singleton, List.countP_singleton]
    rw [hlabelBeq]
    simp [taskErrorInfo]
  · rw [he3, hExe]
  · exact he2
  · rw [process_task_raised_eq, he1, hErr]
    simp [taskErrorInfo]

/-- Concrete single-action task whose navigate action fails (C1 witness). -/
def w1Act : CrawlerAction :=
  .navigate ⟨"https://example.com/a", .domcontentloaded⟩

def w1Task : CrawlerTask :=
  { task_id := some "w-c1"
    url := "https://example.com"
    actions := [w1Act] }

def w1Env : TaskEnv :=
  { launchErr := none
    newPageErr := none
    gotoErr := none
    exec := fun _ _ => .err "boom"
    saveErr := none
    durationMs := 3
    timestamp := 1 }

/-- Witness for C1: a concrete failing `navigate` at index 0. -/
theorem critical_failure_appends_pair_and_halts_witness :
    w1Env.exec 0 w1Act = .err "boom" ∧
    ∃ E, (∀ e ∈ E, e.action ≠ "task") ∧
      (process_task w1Task w1Env).result.errors =
        E ++ [⟨mkLabel (actionType w1Act) 0, "boom", none⟩,
          taskErrorInfo "boom"] ∧
      (process_task w1Task w1Env).result.errors.countP
        (fun e => e.action == "task") = 1 ∧
      (process_task w1Task w1Env).executed = List.range (0 + 1) ∧
      (process_task w1Task w1Env).result.success = false ∧
      (process_task w1Task w1Env).raised = true :=
  ⟨rfl,
    critical_failure_appends_pair_and_halts w1Task w1Env 0 w1Act "boom"
      rfl rfl rfl rfl (Or.inr rfl) rfl
      (fun q _ hq _ => absurd hq (Nat.not_lt_zero q))⟩

/-- C3: when the action at index `i` fails and its type is neither `login`
nor `navigate`, the failure appends exactly one `type[i]`-labeled
`ActionError` (between the errors of the earlier and the later actions) and
the loop proceeds to index `i + 1`: the executed trace extends
`[0, …, i]`, and index `i + 1` is executed whenever an action exists
there. -/
theorem noncritical_failure_records_and_continues (task : CrawlerTask)
    (env : TaskEnv) (i : Nat) (a : CrawlerAction) (msg : String)
    (hl : env.launchErr = none) (hn : env.newPageErr = none)
    (hg : env.gotoErr = none)
    (ha : task.actions.get? i = some a)
    (hcrit : isCritical a = false)
    (hfail : env.exec i a = .err msg)
    (hpre : ∀ q b, q < i → task.actions.get? q = some b →
        aborting (env.exec q b) b = false) :
    ∃ E F, (∀ e ∈ E, e.action ≠ "task") ∧
      (process_task task env).result.errors =
        E ++ ⟨mkLabel (actionType a) i, msg, none⟩ :: F ∧
      List.range (i + 1) <+: (process_task task env).executed ∧
      (∀ b, task.actions.get? (i + 1) = some b →
        (i + 1) ∈ (process_task task env).executed) := by
  obtain ⟨hlt, hget⟩ := List.get?_eq_some.mp ha
  obtain ⟨E, d, sc, hE, hrun⟩ :=
    runActions_reach env.exec i task.actions 0 initLoop
      (fun q b hq hb => by simpa using hpre q b hq hb)
      (Nat.le_of_lt hlt)
  simp only [Nat.zero_add] at hrun
  have hdrop : task.actions.drop i = a :: task.actions.drop (i + 1) := by
    rw [List.drop_eq_getElem_cons hlt]
    have hgetElem : task.actions[i] = a := by
      simpa [List.get_eq_getElem] using hget
    rw [hgetElem]
  rw [hdrop] at hrun
  have hstep :
      runActions env.exec i (a :: task.actions.drop (i + 1))
        ⟨d, sc, initLoop.errors ++ E, initLoop.executed ++ List.range' 0 i⟩ =
      runActions env.exec (i + 1) (task.actions.drop (i + 1))
        ⟨d, sc,
          (initLoop.errors ++ E) ++ [⟨mkLabel (actionType a) i, msg, none⟩],
          (initLoop.executed ++ List.range' 0 i) ++ [i]⟩ := by
    simp only [runActions, hfail, hcrit, cond_false]
  rw [hstep] at hrun
  obtain ⟨F0, X, hF1, hF2, hF3, hF4⟩ :=
    runActions_spec env.exec (task.actions.drop (i + 1)) (i + 1)
      ⟨d, sc,
        (initLoop.errors ++ E) ++ [⟨mkLabel (actionType a) i, msg, none⟩],
        (initLoop.executed ++ List.range' 0 i) ++ [i]⟩
  have hExe : (initLoop.executed ++ List.range' 0 i) ++ [i]
      = List.range (i + 1) := by
    simp only [initLoop, List.nil_append]
    rw [← List.range_eq_range', ← List.range_succ]
  rcases hfin : runActions env.exec (i + 1) (task.actions.drop (i + 1))
      ⟨d, sc,
        (initLoop.errors ++ E) ++ [⟨mkLabel (actionType a) i, msg, none⟩],
        (initLoop.executed ++ List.range' 0 i) ++ [i]⟩ with ⟨st2, esc2⟩
  rw [hfin] at hrun hF1 hF2
  simp only at hF1 hF2
  have hmemX : ∀ b, task.actions.get? (i + 1) = some b → (i + 1) ∈ X := by
    intro b hb
    apply hF4
    intro hnil
    obtain ⟨hlt2, _⟩ := List.get?_eq_some.mp hb
    rw [List.drop_eq_nil_iff] at hnil
    omega
  cases esc2 with
  | none =>
    obtain ⟨he1, _, he3⟩ := process_task_complete task env st2 hl hn hg hrun
    refine ⟨E, F0, hE, ?_, ?_, ?_⟩
    · rw [he1, hF1]
      simp [initLoop]
    · rw [he3, hF2, hExe]
      exact ⟨X, rfl⟩
    · intro b hb
      rw [he3, hF2, hExe]
      exact List.mem_append_right _ (hmemX b hb)
  | some msg2 =>
    obtain ⟨he1, _, he3⟩ := process_task_escape task env st2 msg2 hl hn hg hrun
    refine ⟨E, F0 ++ [taskErrorInfo msg2], hE, ?_, ?_, ?_⟩
    · rw [he1, hF1]
      simp [initLoop]
    · rw [he3, hF2, hExe]
      exact ⟨X, rfl⟩
    · intro b hb
      rw [he3, hF2, hExe]
      exact List.mem_append_right _ (hmemX b hb)

/-- Concrete two-action task whose first (click) action fails
(C3 witness). -/
def w3ClickAct : CrawlerAction := .click ⟨"//b", false, none⟩

def w3WaitAct : CrawlerAction := .wait ⟨none, some .visible, none, some 5⟩

def w3Task : CrawlerTask :=
  { task_id := some "w-c3"
    url := "https://example.com"
    actions := [w3ClickAct, w3WaitAct] }

def w3Env : TaskEnv :=
  { launchErr := none
    newPageErr := none
    gotoErr := none
    exec := fun i _ => if i == 0 then .err "click failed" else .ok [] none
    saveErr := none
    durationMs := 4
    timestamp := 2 }

/-- Witness for C3: a concrete failing `click` at index 0 followed by a
`wait` that still executes. -/
theorem noncritical_failure_records_and_continues_witness :
    w3Env.exec 0 w3ClickAct = .err "click failed" ∧
    isCritical w3ClickAct = false ∧
    ∃ E F, (∀ e ∈ E, e.action ≠ "task") ∧
      (process_task w3Task w3Env).result.errors =
        E ++ ⟨mkLabel (actionType w3ClickAct) 0, "click failed", none⟩ :: F ∧
      List.range (0 + 1) <+: (process_task w3Task w3Env).executed ∧
      (∀ b, w3Task.actions.get? (0 + 1) = some b →
        (0 + 1) ∈ (process_task w3Task w3Env).executed) :=
  ⟨rfl, rfl,
    noncritical_failure_records_and_continues w3Task w3Env 0 w3ClickAct
      "click failed" rfl rfl rfl rfl rfl rfl
      (fun q _ hq _ => absurd hq (Nat.not_lt_zero q))⟩

/-! ## Parsing lemmas -/

theorem except_bind_ok {ε α β : Type} (a : α) (f : α → Except ε β) :
    (Except.ok a >>= f) = f a := rfl

theorem except_bind_err {ε α β : Type} (e : ε) (f : α → Except ε β) :
    ((Except.error e : Except ε α) >>= f) = .error e := rfl

/-- After `data[k] = v`, looking up `k` yields `v`. -/
theorem jLookup_jSet_self (fs : List (String × Json)) (k : String) (v : Json) :
    jLookup (jSet fs k v) k = some v := by
  induction fs with
  | nil => simp [jSet, jLookup]
  | cons p rest ih =>
    by_cases h : (p.1 == k) = true
    · simp [jSet, jLookup, h]
    · rw [Bool.not_eq_true] at h
      simp [jSet, jLookup, h, ih]

/-- Assignment `data[k] = v` does not change the binding of any other key. -/
theorem jLookup_jSet_ne (fs : List (String × Json)) (k k' : String) (v : Json)
    (h : k' ≠ k) :
    jLookup (jSet fs k v) k' = jLookup fs k' := by
  have hkk' : (k == k') = false := beq_eq_false_iff_ne.mpr (Ne.symm h)
  induction fs with
  | nil => simp [jSet, jLookup, hkk']
  | cons p rest ih =>
    by_cases hp : (p.1 == k) = true
    · have hp1 : p.1 = k := by simpa using hp
      have hpk' : (p.1 == k') = false := by rw [hp1]; exact hkk'
      simp [jSet, jLookup, hp, hkk', hpk']
    · rw [Bool.not_eq_true] at hp
      simp only [jSet, hp, cond_false, Bool.false_eq_true, if_false]
      simp [jLookup, ih]

/-- Inversion of Pydantic task construction: success determines every field
from the decoded object's bindings. -/
theorem mkCrawlerTask_ok_iff (fs : List (String × Json)) (t : CrawlerTask) :
    mkCrawlerTask fs = .ok t ↔
    ∃ tid url actions config metadata,
      parseTaskId (jLookup fs "task_id") = .ok tid ∧
      parseUrl (jLookup fs "url") = .ok url ∧
      parseActions (jLookup fs "actions") = .ok actions ∧
      parseConfigField (jLookup fs "config") = .ok config ∧
      parseMetadataField (jLookup fs "metadata") = .ok metadata ∧
      t = ⟨tid, url, actions, config, metadata⟩ := by
  unfold mkCrawlerTask
  constructor
  · intro h
    cases h1 : parseTaskId (jLookup fs "task_id") with
    | error e => rw [h1, except_bind_err] at h; exact absurd h (by simp)
    | ok tid =>
      rw [h1, except_bind_ok] at h
      cases h2 : parseUrl (jLookup fs "url") with
      | error e => rw [h2, except_bind_err] at h; exact absurd h (by simp)
      | ok url =>
        rw [h2, except_bind_ok] at h
        cases h3 : parseActions (jLookup fs "actions") with
        | error e => rw [h3, except_bind_err] at h; exact absurd h (by simp)
        | ok actions =>
          rw [h3, except_bind_ok] at h
          cases h4 : parseConfigField (jLookup fs "config") with
          | error e => rw [h4, except_bind_err] at h; exact absurd h (by simp)
          | ok config =>
            rw [h4, except_bind_ok] at h
            cases h5 : parseMetadataField (jLookup fs "metadata") with
            | error e =>
              rw [h5, except_bind_err] at h; exact absurd h (by simp)
            | ok metadata =>
              rw [h5, except_bind_ok] at h
              refine ⟨tid, url, actions, config, metadata,
                rfl, rfl, rfl, rfl, rfl, ?_⟩
              have := h
              simp only [pure, Except.pure, Except.ok.injEq] at this
              exact this.symm
  · rintro ⟨tid, url, actions, config, metadata, h1, h2, h3, h4, h5, rfl⟩
    rw [h1, except_bind_ok, h2, except_bind_ok, h3, except_bind_ok,
      h4, except_bind_ok, h5, except_bind_ok]
    rfl

instance {ε α : Type} [DecidableEq ε] [DecidableEq α] :
    DecidableEq (Except ε α) := fun a b =>
  match a, b with
  | .ok x, .ok y =>
    if h : x = y then .isTrue (by rw [h]) else .isFalse (by simp [h])
  | .error x, .error y =>
    if h : x = y then .isTrue (by rw [h]) else .isFalse (by simp [h])
  | .ok _, .error _ => .isFalse (by simp)
  | .error _, .ok _ => .isFalse (by simp)

theorem generate_task_id_ne_empty (n : Nat) (u : String) :
    generate_task_id n u ≠ "" := by
  intro h
  have hlen := congrArg String.length h
  have h5 : ("task-" : String).length = 5 := rfl
  have h1 : ("-" : String).length = 1 := rfl
  have h0 : ("" : String).length = 0 := rfl
  simp only [generate_task_id, String.length_append, h5, h1, h0] at hlen
  omega

/-- The task id a successful parse assigns: the generated one when the
payload's `task_id` was absent or falsy, the payload's nonempty string
otherwise. -/
theorem parse_task_ok_taskId (fs : List (String × Json)) (g : String)
    (t : CrawlerTask)
    (h : parse_task (.valid (.obj fs)) g = .ok t) :
    (hasTruthyTaskId fs = false ∧ t.task_id = some g) ∨
    (∃ s, jLookup fs "task_id" = some (.str s) ∧ s ≠ "" ∧
      t.task_id = some s) := by
  simp only [parse_task] at h
  by_cases ht : hasTruthyTaskId fs = true
  · rw [if_pos ht] at h
    right
    obtain ⟨tid, url, actions, config, metadata, c1, _, _, _, _, ct⟩ :=
      (mkCrawlerTask_ok_iff fs t).mp h
    unfold hasTruthyTaskId at ht
    cases hv : jLookup fs "task_id" with
    | none => rw [hv] at ht; simp at ht
    | some v =>
      rw [hv] at ht c1
      cases v with
      | null => simp [Json.truthy] at ht
      | bool b => simp [parseTaskId] at c1
      | num n => simp [parseTaskId] at c1
      | str s =>
        have hs : s ≠ "" := by simpa [Json.truthy] using ht
        have htid : tid = some s := by
          simpa [parseTaskId] using c1.symm
        exact ⟨s, rfl, hs, by rw [ct, htid]⟩
      | arr xs => simp [parseTaskId] at c1
      | obj gs => simp [parseTaskId] at c1
  · rw [if_neg ht] at h
    left
    rw [Bool.not_eq_true] at ht
    refine ⟨ht, ?_⟩
    obtain ⟨tid, url, actions, config, metadata, c1, _, _, _, _, ct⟩ :=
      (mkCrawlerTask_ok_iff _ t).mp h
    rw [jLookup_jSet_self] at c1
    have htid : tid = some g := by simpa [parseTaskId] using c1.symm
    rw [ct, htid]

/-- C9: a present-but-falsy `task_id` (for example the empty string) is
replaced by the freshly generated id, and a task constructed by
`parse_task` with a `generate_task_id`-produced id never carries an empty
task id. -/
theorem falsy_task_id_regenerated :
    (∀ fs v g t, jLookup fs "task_id" = some v → v.truthy = false →
      parse_task (.valid (.obj fs)) g = .ok t → t.task_id = some g) ∧
    (∀ body n u t, parse_task body (generate_task_id n u) = .ok t →
      ∃ s, t.task_id = some s ∧ s ≠ "") := by
  constructor
  · intro fs v g t hv hfalsy hok
    rcases parse_task_ok_taskId fs g t hok with ⟨_, h⟩ | ⟨s, hs, hsne, _⟩
    · exact h
    · rw [hv] at hs
      injection hs with hs
      rw [hs] at hfalsy
      simp [Json.truthy, hsne] at hfalsy
  · intro body n u t hok
    cases body with
    | invalid msg => simp [parse_task] at hok
    | valid data =>
      cases data with
      | obj fs =>
        rcases parse_task_ok_taskId fs (generate_task_id n u) t hok with
          ⟨_, h⟩ | ⟨s, _, hsne, h⟩
        · exact ⟨generate_task_id n u, h, generate_task_id_ne_empty n u⟩
        · exact ⟨s, h, hsne⟩
      | null => simp [parse_task] at hok
      | bool b => simp [parse_task] at hok
      | num m => simp [parse_task] at hok
      | str s => simp [parse_task] at hok
      | arr xs => simp [parse_task] at hok

/-- Concrete payload with an empty-string `task_id` (C9 witness). -/
def w9Fields : List (String × Json) :=
  [("task_id", .str ""), ("url", .str "https://e.com"), ("actions", .arr [])]

/-- Witness for C9: the empty-string id is replaced, and the generated id is
nonempty. -/
theorem falsy_task_id_regenerated_witness :
    (∃ t, parse_task (.valid (.obj w9Fields)) "gen-1" = .ok t ∧
      t.task_id = some "gen-1") ∧
    (∃ t, parse_task (.valid (.obj w9Fields)) (generate_task_id 255 "abcdef")
        = .ok t ∧ ∃ s, t.task_id = some s ∧ s ≠ "") := by
  constructor
  · refine ⟨⟨some "gen-1", "https://e.com", [], {}, []⟩, by decide, ?_⟩
    exact falsy_task_id_regenerated.1 w9Fields (.str "") "gen-1"
      ⟨some "gen-1", "https://e.com", [], {}, []⟩ rfl rfl (by decide)
  · refine ⟨⟨some (generate_task_id 255 "abcdef"), "https://e.com", [], {}, []⟩,
      by decide, ?_⟩
    exact falsy_task_id_regenerated.2 (.valid (.obj w9Fields)) 255 "abcdef"
      ⟨some (generate_task_id 255 "abcdef"), "https://e.com", [], {}, []⟩
      (by decide)

/-- C8 counterexample: the generated id is not a millisecond-timestamp in
hex followed by a suffix — it starts with the literal prefix `task-`.  At
epoch millisecond 255 (hex `ff`) no suffix makes the id
`hex-timestamp ++ suffix`. -/
theorem generated_id_shape_counterexample :
    generate_task_id 255 "abcdef1234567890abcdef1234567890" = "task-ff-abcdef" ∧
    ¬ ∃ suffix : String,
      generate_task_id 255 "abcdef1234567890abcdef1234567890" =
        String.mk (Nat.toDigits 16 255) ++ suffix := by
  refine ⟨by decide, ?_⟩
  rintro ⟨suffix, h⟩
  have hgen : generate_task_id 255 "abcdef1234567890abcdef1234567890"
      = "task-ff-abcdef" := by decide
  have h16 : Nat.toDigits 16 255 = ['f', 'f'] := by decide
  rw [hgen, h16] at h
  have hd := congrArg String.data h
  rw [String.data_append] at hd
  rw [show (String.mk ['f', 'f']).data = ['f', 'f'] from rfl] at hd
  simp only [List.cons_append, List.nil_append] at hd
  have hh := congrArg List.head? hd
  simp at hh

/-- C8 (amended): parsing is idempotent up to the auto-generated id — the
same payload parsed twice yields tasks equal in `url`, `actions`, `config`
and `metadata`; a supplied truthy `task_id` is preserved unchanged in both
parses; and the generated id is the literal `task-` followed by the
millisecond-timestamp in hex, a hyphen, and the six-character random
suffix. -/
theorem parse_idempotent_upto_id (data : Json) (g1 g2 : String)
    (t1 t2 : CrawlerTask)
    (h1 : parse_task (.valid data) g1 = .ok t1)
    (h2 : parse_task (.valid data) g2 = .ok t2) :
    t1.url = t2.url ∧ t1.actions = t2.actions ∧ t1.config = t2.config ∧
    t1.metadata = t2.metadata ∧
    (∀ fs s, data = .obj fs → jLookup fs "task_id" = some (.str s) →
      s ≠ "" → t1.task_id = some s ∧ t2.task_id = some s) ∧
    (∀ n u, generate_task_id n u =
      "task-" ++ String.mk (Nat.toDigits 16 n) ++ "-" ++ u.take 6) := by
  cases data with
  | obj fs =>
    simp only [parse_task] at h1 h2
    by_cases ht : hasTruthyTaskId fs = true
    · rw [if_pos ht] at h1 h2
      rw [h1] at h2
      injection h2 with h2
      subst h2
      refine ⟨rfl, rfl, rfl, rfl, ?_, fun n u => rfl⟩
      intro fs' s hfs hlk hs
      injection hfs with hfs'
      subst hfs'
      obtain ⟨tid, url, actions, config, metadata, c1, _, _, _, _, ct⟩ :=
        (mkCrawlerTask_ok_iff fs t1).mp h1
      rw [hlk] at c1
      have htid : tid = some s := by simpa [parseTaskId] using c1.symm
      rw [ct, htid]
      exact ⟨rfl, rfl⟩
    · rw [if_neg ht] at h1 h2
      obtain ⟨tid1, url1, a1, cf1, m1, d1, e1, f1, k1, i1, ct1⟩ :=
        (mkCrawlerTask_ok_iff _ t1).mp h1
      obtain ⟨tid2, url2, a2, cf2, m2, d2, e2, f2, k2, i2, ct2⟩ :=
        (mkCrawlerTask_ok_iff _ t2).mp h2
      rw [jLookup_jSet_ne fs "task_id" "url" _ (by decide)] at e1 e2
      rw [jLookup_jSet_ne fs "task_id" "actions" _ (by decide)] at f1 f2
      rw [jLookup_jSet_ne fs "task_id" "config" _ (by decide)] at k1 k2
      rw [jLookup_jSet_ne fs "task_id" "metadata" _ (by decide)] at i1 i2
      rw [e1] at e2
      injection e2 with e2
      rw [f1] at f2
      injection f2 with f2
      rw [k1] at k2
      injection k2 with k2
      rw [i1] at i2
      injection i2 with i2
      subst e2 f2 k2 i2
      refine ⟨by rw [ct1, ct2], by rw [ct1, ct2], by rw [ct1, ct2],
        by rw [ct1, ct2], ?_, fun n u => rfl⟩
      intro fs' s hfs hlk hs
      injection hfs with hfs'
      subst hfs'
      have : hasTruthyTaskId fs = true := by
        unfold hasTruthyTaskId
        rw [hlk]
        simp [Json.truthy, hs]
      exact absurd this ht
  | null => simp [parse_task] at h1
  | bool b => simp [parse_task] at h1
  | num n => simp [parse_task] at h1
  | str s => simp [parse_task] at h1
  | arr xs => simp [parse_task] at h1

/-- Concrete payload omitting `task_id` (C8 witness). -/
def w8Fields : List (String × Json) :=
  [("url", .str "https://e.com"), ("actions", .arr [])]

def w8TaskA : CrawlerTask := ⟨some "gen-a", "https://e.com", [], {}, []⟩

def w8TaskB : CrawlerTask := ⟨some "gen-b", "https://e.com", [], {}, []⟩

/-- Witness for C8: the same payload parsed with two different generated ids
yields tasks equal in every field except `task_id`. -/
theorem parse_idempotent_upto_id_witness :
    parse_task (.valid (.obj w8Fields)) "gen-a" = .ok w8TaskA ∧
    parse_task (.valid (.obj w8Fields)) "gen-b" = .ok w8TaskB ∧
    (w8TaskA.url = w8TaskB.url ∧ w8TaskA.actions = w8TaskB.actions ∧
      w8TaskA.config = w8TaskB.config ∧ w8TaskA.metadata = w8TaskB.metadata ∧
      (∀ fs s, Json.obj w8Fields = .obj fs →
        jLookup fs "task_id" = some (.str s) → s ≠ "" →
        w8TaskA.task_id = some s ∧ w8TaskB.task_id = some s) ∧
      (∀ n u, generate_task_id n u =
        "task-" ++ String.mk (Nat.toDigits 16 n) ++ "-" ++ u.take 6)) :=
  ⟨by decide, by decide,
    parse_idempotent_upto_id (.obj w8Fields) "gen-a" "gen-b" w8TaskA w8TaskB
      (by decide) (by decide)⟩

/-- Dispatcher environment over a page on which every locator resolves to
nothing; the collaborator outcomes of the other variants are unused by the
single-extract scenario. -/
def cEmptyPageEnv : DispatchEnv :=
  { page := ⟨fun _ => []⟩
    loginOutcome := fun _ => none
    clickOutcome := fun _ => none
    fillOutcome := fun _ => none
    waitOutcome := fun _ => none
    screenshotOutcome := fun _ => .error "unused"
    navigateOutcome := fun _ => none
    selectOutcome := fun _ => none
    hoverOutcome := fun _ => none
    scrollOutcome := fun _ => none
    evaluateOutcome := fun _ => .error "unused" }

def c7Task : CrawlerTask :=
  { task_id := some "t-c7"
    url := "https://example.com"
    actions := [.extract ⟨"//span", "inner_text", false, "x"⟩] }

def c7Env : TaskEnv :=
  { launchErr := none
    newPageErr := none
    gotoErr := none
    exec := fun _ a => execute_action cEmptyPageEnv a
    saveErr := none
    durationMs := 5
    timestamp := 0 }

/-- C7 counterexample: the single missing-locator Extract scenario produces
exactly one `extract[0]` ActionError, but `Result.success` is `false` — not
`true` as claimed — because the code sets `success = (errors empty)`
unconditionally on loop completion. -/
theorem extract_miss_success_counterexample :
    (process_task c7Task c7Env).result.errors =
      [⟨"extract[0]", "Timeout waiting for locator xpath=//span", none⟩] ∧
    (process_task c7Task c7Env).result.success = false :=
  ⟨by decide, by decide⟩

/-- C7 (amended): executing the single action sequence
`[Extract(locator matching nothing, name)]` on a reachable page yields a
Result with exactly one ActionError labeled `extract[0]` and
`success = false` (success is the errors-empty flag), and the attempt is
not reported failed upward — no redelivery — because Extract is not in the
fatal set. -/
theorem extract_miss_one_error_not_redelivered (x at_ nm : String)
    (denv : DispatchEnv) (task : CrawlerTask) (env : TaskEnv)
    (hq : denv.page.query (xpath_selector x) = [])
    (hacts : task.actions = [.extract ⟨x, at_, false, nm⟩])
    (hl : env.launchErr = none) (hn : env.newPageErr = none)
    (hg : env.gotoErr = none)
    (hexec : env.exec = fun _ a => execute_action denv a) :
    (process_task task env).result.errors =
      [⟨"extract[0]", "Timeout waiting for locator " ++ xpath_selector x,
        none⟩] ∧
    (process_task task env).result.success = false ∧
    (process_task task env).raised = false := by
  have hex : env.exec 0 (.extract ⟨x, at_, false, nm⟩) =
      .err ("Timeout waiting for locator " ++ xpath_selector x) := by
    rw [hexec]
    simp [execute_action, execute_extract, hq]
  have hcritB : isCritical (.extract ⟨x, at_, false, nm⟩) = false := rfl
  have hrun : runActions env.exec 0 task.actions initLoop =
      (⟨[], [],
        [⟨"extract[0]", "Timeout waiting for locator " ++ xpath_selector x,
          none⟩], [0]⟩, none) := by
    rw [hacts]
    simp only [runActions, hex, hcritB, cond_false, actionType]
    rw [show mkLabel "extract" 0 = "extract[0]" from by decide]
    simp [initLoop]
  obtain ⟨he1, he2, he3⟩ := process_task_complete task env _ hl hn hg hrun
  refine ⟨by rw [he1], ?_, ?_⟩
  · rw [he2]
    rfl
  · rw [process_task_raised_eq, he1]
    simp

/-- Witness for C7 (amended) at the concrete empty-page environment. -/
theorem extract_miss_one_error_not_redelivered_witness :
    cEmptyPageEnv.page.query (xpath_selector "//span") = [] ∧
    ((process_task c7Task c7Env).result.errors =
      [⟨"extract[0]",
        "Timeout waiting for locator " ++ xpath_selector "//span", none⟩] ∧
     (process_task c7Task c7Env).result.success = false ∧
     (process_task c7Task c7Env).raised = false) :=
  ⟨rfl, extract_miss_one_error_not_redelivered "//span" "inner_text" "x"
    cEmptyPageEnv c7Task c7Env rfl rfl rfl rfl rfl rfl⟩

/-- C10 counterexample: a Wait action specifying both a fixed delay of `0`
and a locator performs the locator wait — Python's `if action.delay:` treats
the delay `0` as absent — so the locator wait is not skipped. -/
theorem wait_zero_delay_counterexample :
    execute_wait ⟨some "//div", some .visible, none, some 0⟩ =
      [.selectorWait "xpath=//div" "visible" none] ∧
    execute_wait ⟨some "//div", some .visible, none, some 0⟩ ≠
      [.timeoutWait 0] :=
  ⟨by decide, by decide⟩

/-- C10 (amended): for every Wait action specifying a truthy (nonzero)
fixed delay, only the fixed delay is performed and the locator wait is
skipped entirely; a Wait action specifying neither a delay nor a locator is
a no-op. -/
theorem wait_delay_precedence (a : WaitAction) :
    (truthyInt a.delay = true →
      execute_wait a = [.timeoutWait (a.delay.getD 0)]) ∧
    (a.delay = none → a.xpath = none → execute_wait a = []) := by
  constructor
  · intro h
    unfold execute_wait
    rw [if_pos h]
  · intro hd hx
    unfold execute_wait
    rw [hd, hx]
    simp [truthyInt, truthyStr]

/-- Witness for C10 (amended): a nonzero delay beats a present locator, and
an all-absent Wait does nothing. -/
theorem wait_delay_precedence_witness :
    execute_wait ⟨some "//x", some .visible, none, some 100⟩ =
      [.timeoutWait 100] ∧
    execute_wait ⟨none, some .visible, none, none⟩ = [] :=
  ⟨(wait_delay_precedence ⟨some "//x", some .visible, none, some 100⟩).1
      (by decide),
    (wait_delay_precedence ⟨none, some .visible, none, none⟩).2 rfl rfl⟩

end Crawler
